import Mathlib

/-!
Shallow embedding of the MemDiff integrity-monitoring pipeline
(src/dllmain.cpp, src/macrowriter.cpp, src/error-checking.h).

Memory is modelled as a total function `Nat → Nat` from byte addresses to
byte values; buffers are `List Nat`.  Machine pointers become plain `Nat`
addresses (the model has no overflow: the walk stays inside the module's
address range).  Windows protection constants keep their numeric values.
-/

/-- Windows protection constant PAGE_EXECUTE_READ (0x20). -/
def PAGE_EXECUTE_READ : Nat := 32

/-- Windows protection constant PAGE_READONLY (0x02). -/
def PAGE_READONLY : Nat := 2

/-- Modelled from the spec: the Checksum Engine (`crc_crypt`, declared in
src/error-checking.h but implemented outside src/) is a deterministic,
order-sensitive, fixed-width (32-bit) integrity hash over a byte buffer,
with a defined sentinel (0) on the empty buffer.  Modelled as a 32-bit
polynomial fold. -/
def crc_crypt (data : List Nat) : Nat :=
  data.foldl (fun h b => (h * 131 + b) % 2 ^ 32) 0

/-- src/dllmain.cpp `GetChecksum`: wraps `crc_crypt` over the byte range.
The pointer/length pair of the source is modelled as the list of bytes it
denotes. -/
def GetChecksum (data : List Nat) : Nat :=
  crc_crypt data

/-- The bytes of live memory `mem` at addresses `base, base+1, ..., base+size-1`
(the dereference of a pointer range in the source). -/
def liveBytes (mem : Nat → Nat) (base size : Nat) : List Nat :=
  (List.range size).map fun k => mem (base + k)

/-- src/dllmain.cpp `MEMORY_BASIC_INFORMATION`, restricted to the fields the
program reads: base address, region size and protection. -/
structure MBI where
  BaseAddress : Nat
  RegionSize : Nat
  Protect : Nat
deriving DecidableEq

/-- src/dllmain.cpp `MEM_DIFF`: checksum, region information and the saved
page contents. -/
structure MEM_DIFF where
  Checksum : Nat
  BasicInformation : MBI
  PageData : List Nat
deriving DecidableEq

/-- src/dllmain.cpp `EstablishPage`: copies every byte of the region
`[BaseAddress, BaseAddress + RegionSize)` from live memory into `PageData`,
then stores the checksum of that buffer.  The source pushes the block onto
`DiffList`; the model returns the block and the caller appends it. -/
def EstablishPage (mem : Nat → Nat) (BasicInformation : MBI) : MEM_DIFF :=
  let PageData := liveBytes mem BasicInformation.BaseAddress BasicInformation.RegionSize
  { Checksum := GetChecksum PageData
    BasicInformation := BasicInformation
    PageData := PageData }

/-- src/dllmain.cpp `ComparePages` loop body (lines 252-268): walks offsets
`i, i+1, ..., i+n-1`, comparing the snapshot byte (`Page`, here `page`) with
the live byte (`AltPage`, here `alt`); on a difference it records
`(live byte, live address)` in `ChangedBytes` and `(snapshot byte, live
address)` in `OriginBytes`.  The live address is `altBase + offset`. -/
def comparePagesGo (page alt : List Nat) (altBase : Nat) : Nat → Nat → List (Nat × Nat) × List (Nat × Nat)
  | _, 0 => ([], [])
  | i, n + 1 =>
    let rest := comparePagesGo page alt altBase (i + 1) n
    if page.getD i 0 ≠ alt.getD i 0 then
      ((alt.getD i 0, altBase + i) :: rest.1, (page.getD i 0, altBase + i) :: rest.2)
    else rest

/-- src/dllmain.cpp `ComparePages`: compares `PageSize` positions of the
snapshot buffer and the live region starting at `altBase`, returning the
pair `(ChangedBytes, OriginBytes)`.  Note the source performs no length
check of any kind: it always compares exactly `PageSize` positions. -/
def ComparePages (page alt : List Nat) (altBase PageSize : Nat) : List (Nat × Nat) × List (Nat × Nat) :=
  comparePagesGo page alt altBase 0 PageSize

/-- The offsets below `size` at which the snapshot and live buffers differ
(specification-side description of the differ's output positions). -/
def diffOffsets (page alt : List Nat) (size : Nat) : List Nat :=
  (List.range size).filter fun j => page.getD j 0 ≠ alt.getD j 0

/-- src/macrowriter.cpp `GeneratePairMacro` line 66: the function header
(`FunctionInit`) built from the effective macro name. -/
def functionInitStr (name : String) : String :=
  "void " ++ name ++ "(HANDLE ProcessHandle)\n\x7b\n"

/-- src/macrowriter.cpp `GeneratePairMacro` line 67: the function footer
(`FunctionEnd`). -/
def functionEndStr : String :=
  "\x7d"

/-- src/macrowriter.cpp `GeneratePairMacro` lines 78-79: the buffer
declaration (`VarInit`) for change index `item` holding byte `value`. -/
def varInitStr (item value : Nat) : String :=
  "\tBYTE Buffer" ++ toString item ++ " = " ++ toString value ++ "L;\n"

/-- src/macrowriter.cpp `GeneratePairMacro` lines 85-86: the
WriteProcessMemory statement (`WriteInit`) for change index `item` writing
at address `addr`. -/
def writeInitStr (item addr : Nat) : String :=
  "\tWriteProcessMemory(ProcessHandle, (PVOID)" ++ toString addr ++ "L, &Buffer" ++ toString item ++ ", 1, NULL);\n\n"

/-- src/macrowriter.cpp `GeneratePairMacro`: replaces an empty name with
"DefaultMacroName", pushes the header/footer pair, then pushes one
(VarInit, WriteInit) pair for each change `ChangeList[Item]` in index
order. -/
def GeneratePairMacro (MacroName : String) (ChangeList : List (Nat × Nat)) : List (String × String) :=
  let name := if MacroName = "" then "DefaultMacroName" else MacroName
  (functionInitStr name, functionEndStr) ::
    (List.range ChangeList.length).map fun item =>
      (varInitStr item (ChangeList.getD item (0, 0)).1,
       writeInitStr item (ChangeList.getD item (0, 0)).2)

/-- src/macrowriter.cpp `OutputMacro`: prints `Macros[0].first`, then each
later pair's two strings, then `Macros[0].second`.  The source indexes
`Macros[0]` unconditionally; the model returns `none` exactly when that
access would be out of bounds. -/
def OutputMacro (Macros : List (String × String)) : Option String :=
  match Macros with
  | [] => none
  | m0 :: rest =>
    some (m0.1 ++ String.join (rest.map fun p => p.1 ++ p.2) ++ m0.2 ++ "\n")

/-- src/dllmain.cpp `EvaluatePage`: recomputes the checksum of the live
region recorded in the `MEM_DIFF` and returns it when it differs from the
stored checksum, `NULL` (0) otherwise. -/
def EvaluatePage (mem : Nat → Nat) (Comparator : MEM_DIFF) : Nat :=
  let TargetChecksum :=
    GetChecksum (liveBytes mem Comparator.BasicInformation.BaseAddress Comparator.BasicInformation.RegionSize)
  if TargetChecksum ≠ Comparator.Checksum then TargetChecksum else 0

/-- src/dllmain.cpp `GetModulePages` loop (lines 165-184), with explicit
fuel standing for the number of loop iterations (the source loop can fail
to terminate, e.g. when `RegionSize` is 0).  `q` models `VirtualQuery`:
`none` is a failed query, whose result the source IGNORES — the previous
contents of `BasicInformation` are kept and the walk continues.  The loop
condition re-reads the current `BasicInformation.BaseAddress`; the inner
guard compares against `Module + SizeOfImage`; `EstablishPage` runs only
when the protection is exactly PAGE_EXECUTE_READ or PAGE_READONLY. -/
def getModulePagesLoop (mem : Nat → Nat) (q : Nat → Option MBI) (Module SizeOfImage : Nat) :
    MBI → Nat → List MEM_DIFF → Nat → List MEM_DIFF
  | _, _, acc, 0 => acc
  | bi, PageIter, acc, fuel + 1 =>
    if PageIter < bi.BaseAddress + SizeOfImage then
      let bi' := (q PageIter).getD bi
      let acc' :=
        if bi'.BaseAddress < Module + SizeOfImage ∧
            (bi'.Protect = PAGE_EXECUTE_READ ∨ bi'.Protect = PAGE_READONLY) then
          acc ++ [EstablishPage mem bi']
        else acc
      getModulePagesLoop mem q Module SizeOfImage bi' (PageIter + bi'.RegionSize) acc' fuel
    else acc

/-- src/dllmain.cpp `GetModulePages`: module resolution and module
information are modelled by `ModuleInformation` (`none` when
`K32GetModuleInformation` fails, in which case the source returns
`GetLastError()`, here the `lastError` parameter, without enumerating
anything).  On success the initial `VirtualQuery` on the module handle
fills `BasicInformation` (a zeroed struct is kept when it fails — the
source never checks VirtualQuery's result) and the page walk runs,
returning status 0. -/
def GetModulePages (mem : Nat → Nat) (q : Nat → Option MBI) (Module : Nat)
    (ModuleInformation : Option Nat) (lastError fuel : Nat) : Nat × List MEM_DIFF :=
  match ModuleInformation with
  | none => (lastError, [])
  | some SizeOfImage =>
    let bi0 := (q Module).getD { BaseAddress := 0, RegionSize := 0, Protect := 0 }
    (0, getModulePagesLoop mem q Module SizeOfImage bi0 bi0.BaseAddress [] fuel)

/-- One mismatch report of src/dllmain.cpp `EvaluatePageList` (lines
320-346): the console header data, the differ's two change lists, and the
two generated scripts. -/
structure Report where
  base : Nat
  changedChecksum : Nat
  expectedChecksum : Nat
  changed : List (Nat × Nat)
  origin : List (Nat × Nat)
  applyScript : List (String × String)
  undoScript : List (String × String)
deriving DecidableEq

/-- The body of the mismatch branch of src/dllmain.cpp `EvaluatePageList`
(lines 322-345): runs `ComparePages` on the stored snapshot buffer against
the live region, then generates the apply script under the operator name
and the undo script under `"Undo" + MacroName`. -/
def mkReport (mem : Nat → Nat) (MacroName : String) (Page : MEM_DIFF) (ck : Nat) : Report :=
  let ChangedData :=
    ComparePages Page.PageData
      (liveBytes mem Page.BasicInformation.BaseAddress Page.BasicInformation.RegionSize)
      Page.BasicInformation.BaseAddress Page.BasicInformation.RegionSize
  { base := Page.BasicInformation.BaseAddress
    changedChecksum := ck
    expectedChecksum := Page.Checksum
    changed := ChangedData.1
    origin := ChangedData.2
    applyScript := GeneratePairMacro MacroName ChangedData.1
    undoScript := GeneratePairMacro ("Undo" ++ MacroName) ChangedData.2 }

/-- One snapshot's step of the sweep: evaluate the page; on a nonzero
returned checksum (the mismatch signal of the source's `if (Checksum)`)
produce the report, otherwise nothing.  The per-mismatch operator-typed
macro name is modelled by the `MacroName` parameter. -/
def sweepPage (mem : Nat → Nat) (MacroName : String) (Page : MEM_DIFF) : Option Report :=
  let ck := EvaluatePage mem Page
  if ck ≠ 0 then some (mkReport mem MacroName Page ck) else none

/-- One full sweep of src/dllmain.cpp `EvaluatePageList`'s inner `for` loop
over the snapshot set: every page is evaluated in order and each detected
mismatch yields its report.  The loop iterates over `PageSet` by value and
never writes to it, so the sweep has no effect on the snapshot set. -/
def sweep (mem : Nat → Nat) (MacroName : String) (PageSet : List MEM_DIFF) : List Report :=
  PageSet.filterMap (sweepPage mem MacroName)

/-- src/dllmain.cpp `EvaluatePageList`'s outer `while (PageEval)` loop, run
for `sweeps` iterations over the same (never updated) `PageSet`.  External
writers may change live memory between sweeps: `memSeq k` is the memory
during sweep `k`.  The result is the list of reports of each sweep. -/
def EvaluatePageList (memSeq : Nat → Nat → Nat) (MacroName : String)
    (PageSet : List MEM_DIFF) (sweeps : Nat) : List (List Report) :=
  (List.range sweeps).map fun k => sweep (memSeq k) MacroName PageSet

/-- Modelled from the spec: the host's "write N bytes at an address"
primitive (§6) applied to a whole change list in order — each `(value,
address)` pair overwrites the byte at `address` with `value`.  Used to
state the apply/undo symmetry of the generated scripts. -/
def applyChanges (changes : List (Nat × Nat)) (m : Nat → Nat) : Nat → Nat :=
  changes.foldl (fun acc c => fun a => if a = c.2 then c.1 else acc a) m

theorem comparePagesGo_eq (page alt : List Nat) (altBase : Nat) :
    ∀ n i, comparePagesGo page alt altBase i n =
      (((List.range' i n).filter fun j => page.getD j 0 ≠ alt.getD j 0).map
        (fun j => (alt.getD j 0, altBase + j)),
       ((List.range' i n).filter fun j => page.getD j 0 ≠ alt.getD j 0).map
        (fun j => (page.getD j 0, altBase + j))) := by
  intro n
  induction n with
  | zero => intro i; simp [comparePagesGo]
  | succ n ih =>
    intro i
    simp only [comparePagesGo, ih, List.range'_succ, List.filter_cons]
    split_ifs with h₁ h₂ <;> simp_all

theorem comparePages_eq (page alt : List Nat) (altBase size : Nat) :
    ComparePages page alt altBase size =
      ((diffOffsets page alt size).map (fun j => (alt.getD j 0, altBase + j)),
       (diffOffsets page alt size).map (fun j => (page.getD j 0, altBase + j))) := by
  rw [ComparePages, comparePagesGo_eq, diffOffsets, List.range_eq_range']

theorem mem_diffOffsets {page alt : List Nat} {size j : Nat} :
    j ∈ diffOffsets page alt size ↔ j < size ∧ page.getD j 0 ≠ alt.getD j 0 := by
  simp [diffOffsets, List.mem_filter, List.mem_range]

theorem rangeMap_getD {α : Type} (f : Nat → α) (n k : Nat) (d : α) (hk : k < n) :
    ((List.range n).map f).getD k d = f k := by
  rw [List.getD_eq_getElem ((List.range n).map f) d (by simpa using hk)]
  simp

theorem generatePairMacro_getD (MacroName : String) (ChangeList : List (Nat × Nat)) (k : Nat)
    (hk : k < ChangeList.length) :
    (GeneratePairMacro MacroName ChangeList).getD (k + 1) ("", "") =
      (varInitStr k (ChangeList.getD k (0, 0)).1, writeInitStr k (ChangeList.getD k (0, 0)).2) := by
  rw [GeneratePairMacro]
  exact rangeMap_getD _ _ _ _ hk

theorem applyChanges_cons (c : Nat × Nat) (cs : List (Nat × Nat)) (m : Nat → Nat) :
    applyChanges (c :: cs) m = applyChanges cs (fun a => if a = c.2 then c.1 else m a) := rfl

theorem applyChanges_of_notMem (changes : List (Nat × Nat)) (m : Nat → Nat) (a : Nat)
    (ha : a ∉ changes.map Prod.snd) : applyChanges changes m a = m a := by
  induction changes generalizing m with
  | nil => rfl
  | cons c cs ih =>
    simp only [List.map_cons, List.mem_cons, not_or] at ha
    rw [applyChanges_cons, ih _ ha.2]
    simp [ha.1]

theorem applyChanges_of_mem (changes : List (Nat × Nat)) (m : Nat → Nat) (v a : Nat)
    (hmem : (v, a) ∈ changes) (hpw : (changes.map Prod.snd).Pairwise (· < ·)) :
    applyChanges changes m a = v := by
  induction changes generalizing m with
  | nil => cases hmem
  | cons c cs ih =>
    simp only [List.map_cons, List.pairwise_cons] at hpw
    rcases List.mem_cons.mp hmem with h | h
    · subst h
      have hnot : a ∉ cs.map Prod.snd := by
        intro hin
        exact absurd (hpw.1 a hin) (lt_irrefl a)
      rw [applyChanges_cons, applyChanges_of_notMem _ _ _ hnot]
      simp
    · rw [applyChanges_cons]
      exact ih _ h hpw.2

/-- Claim C1: on equal-length snapshot and live buffers, `ComparePages`
emits exactly one change entry per differing position, each carrying the
live byte and the absolute address `altBase + offset`; the addresses are
strictly ascending; and the output is empty iff the buffers are
identical. -/
theorem comparePages_diff_correct (page alt : List Nat) (altBase : Nat)
    (hlen : page.length = alt.length) :
    (ComparePages page alt altBase page.length).1 =
      (diffOffsets page alt page.length).map (fun j => (alt.getD j 0, altBase + j))
    ∧ List.Pairwise (· < ·) ((ComparePages page alt altBase page.length).1.map Prod.snd)
    ∧ ((ComparePages page alt altBase page.length).1 = [] ↔ page = alt) := by
  refine ⟨by rw [comparePages_eq], ?_, ?_⟩
  · rw [comparePages_eq]
    simp only [List.map_map]
    rw [List.pairwise_map]
    have hpw : List.Pairwise (· < ·) (diffOffsets page alt page.length) :=
      (List.pairwise_lt_range page.length).filter _
    exact hpw.imp (by intro a b hab; simpa using hab)
  · rw [comparePages_eq]
    constructor
    · intro hnil
      have hall : ∀ j ∈ List.range page.length, page.getD j 0 = alt.getD j 0 := by
        have hfil := List.map_eq_nil_iff.mp hnil
        rw [diffOffsets] at hfil
        intro j hj
        by_contra hne
        have hjmem : j ∈ (List.range page.length).filter fun j => page.getD j 0 ≠ alt.getD j 0 :=
          List.mem_filter.mpr ⟨hj, by simpa using hne⟩
        rw [hfil] at hjmem
        cases hjmem
      apply List.ext_getElem hlen
      intro i h1 h2
      have := hall i (List.mem_range.mpr h1)
      rwa [List.getD_eq_getElem page 0 h1, List.getD_eq_getElem alt 0 h2] at this
    · intro heq
      subst heq
      simp [diffOffsets]

/-- Concrete instance discharging the hypothesis of `comparePages_diff_correct`. -/
theorem comparePages_diff_correct_witness :
    ([1, 2, 3] : List Nat).length = ([1, 9, 3] : List Nat).length
    ∧ ((ComparePages [1, 2, 3] [1, 9, 3] 1000 ([1, 2, 3] : List Nat).length).1 =
        (diffOffsets [1, 2, 3] [1, 9, 3] ([1, 2, 3] : List Nat).length).map
          (fun j => (([1, 9, 3] : List Nat).getD j 0, 1000 + j))
      ∧ List.Pairwise (· < ·)
          ((ComparePages [1, 2, 3] [1, 9, 3] 1000 ([1, 2, 3] : List Nat).length).1.map Prod.snd)
      ∧ ((ComparePages [1, 2, 3] [1, 9, 3] 1000 ([1, 2, 3] : List Nat).length).1 = [] ↔
          ([1, 2, 3] : List Nat) = [1, 9, 3])) :=
  ⟨by decide, comparePages_diff_correct [1, 2, 3] [1, 9, 3] 1000 (by decide)⟩

theorem comparePages_origin_pairwise (page alt : List Nat) (altBase size : Nat) :
    List.Pairwise (· < ·) ((ComparePages page alt altBase size).2.map Prod.snd) := by
  rw [comparePages_eq]
  simp only [List.map_map]
  rw [List.pairwise_map]
  exact ((List.pairwise_lt_range size).filter _).imp (by intro a b hab; simpa using hab)

/-- Claim C2: for every change set of a diff, the apply script writes each
change's current (live) byte at its address and the undo script writes the
previous (snapshot) byte at the same address, both rendering the same
address list in the same order; hence applying the apply script's writes
and then the undo script's writes to the original buffer restores it
exactly. -/
theorem patchScripts_apply_undo_symmetry (page alt : List Nat) (altBase : Nat)
    (MacroName : String) (m : Nat → Nat)
    (hlen : page.length = alt.length)
    (hm : ∀ i, i < page.length → m (altBase + i) = page.getD i 0) :
    (ComparePages page alt altBase page.length).2.map Prod.snd =
      (ComparePages page alt altBase page.length).1.map Prod.snd
    ∧ (ComparePages page alt altBase page.length).1 =
        (diffOffsets page alt page.length).map (fun j => (alt.getD j 0, altBase + j))
    ∧ (ComparePages page alt altBase page.length).2 =
        (diffOffsets page alt page.length).map (fun j => (page.getD j 0, altBase + j))
    ∧ (∀ k, k < (ComparePages page alt altBase page.length).1.length →
        (GeneratePairMacro MacroName (ComparePages page alt altBase page.length).1).getD (k + 1) ("", "") =
          (varInitStr k ((ComparePages page alt altBase page.length).1.getD k (0, 0)).1,
           writeInitStr k ((ComparePages page alt altBase page.length).1.getD k (0, 0)).2))
    ∧ (∀ k, k < (ComparePages page alt altBase page.length).2.length →
        (GeneratePairMacro ("Undo" ++ MacroName) (ComparePages page alt altBase page.length).2).getD (k + 1) ("", "") =
          (varInitStr k ((ComparePages page alt altBase page.length).2.getD k (0, 0)).1,
           writeInitStr k ((ComparePages page alt altBase page.length).2.getD k (0, 0)).2))
    ∧ (∀ i, i < page.length →
        applyChanges (ComparePages page alt altBase page.length).2
          (applyChanges (ComparePages page alt altBase page.length).1 m) (altBase + i) =
            page.getD i 0) := by
  refine ⟨by rw [comparePages_eq]; simp [List.map_map], by rw [comparePages_eq],
    by rw [comparePages_eq], fun k hk => generatePairMacro_getD _ _ k hk,
    fun k hk => generatePairMacro_getD _ _ k hk, ?_⟩
  intro i hi
  by_cases hd : page.getD i 0 = alt.getD i 0
  · have hnoto : altBase + i ∉ (ComparePages page alt altBase page.length).2.map Prod.snd := by
      rw [comparePages_eq]
      intro hin
      simp only [List.map_map, List.mem_map, Function.comp] at hin
      obtain ⟨j, hj, hji⟩ := hin
      have : j = i := by omega
      subst this
      exact (mem_diffOffsets.mp hj).2 hd
    have hnotc : altBase + i ∉ (ComparePages page alt altBase page.length).1.map Prod.snd := by
      rw [comparePages_eq]
      intro hin
      simp only [List.map_map, List.mem_map, Function.comp] at hin
      obtain ⟨j, hj, hji⟩ := hin
      have : j = i := by omega
      subst this
      exact (mem_diffOffsets.mp hj).2 hd
    rw [applyChanges_of_notMem _ _ _ hnoto, applyChanges_of_notMem _ _ _ hnotc]
    exact hm i hi
  · have hmemo : (page.getD i 0, altBase + i) ∈ (ComparePages page alt altBase page.length).2 := by
      rw [comparePages_eq]
      exact List.mem_map.mpr ⟨i, mem_diffOffsets.mpr ⟨hi, hd⟩, rfl⟩
    exact applyChanges_of_mem _ _ _ _ hmemo (comparePages_origin_pairwise page alt altBase page.length)

/-- Concrete instance discharging the hypotheses of
`patchScripts_apply_undo_symmetry`. -/
theorem patchScripts_apply_undo_symmetry_witness :
    ([5, 6] : List Nat).length = ([5, 9] : List Nat).length
    ∧ (∀ i, i < ([5, 6] : List Nat).length →
        (fun a => ([5, 6] : List Nat).getD a 0) (0 + i) = ([5, 6] : List Nat).getD i 0)
    ∧ ((ComparePages [5, 6] [5, 9] 0 ([5, 6] : List Nat).length).2.map Prod.snd =
        (ComparePages [5, 6] [5, 9] 0 ([5, 6] : List Nat).length).1.map Prod.snd
      ∧ (ComparePages [5, 6] [5, 9] 0 ([5, 6] : List Nat).length).1 =
          (diffOffsets [5, 6] [5, 9] ([5, 6] : List Nat).length).map
            (fun j => (([5, 9] : List Nat).getD j 0, 0 + j))
      ∧ (ComparePages [5, 6] [5, 9] 0 ([5, 6] : List Nat).length).2 =
          (diffOffsets [5, 6] [5, 9] ([5, 6] : List Nat).length).map
            (fun j => (([5, 6] : List Nat).getD j 0, 0 + j))
      ∧ (∀ k, k < (ComparePages [5, 6] [5, 9] 0 ([5, 6] : List Nat).length).1.length →
          (GeneratePairMacro "X" (ComparePages [5, 6] [5, 9] 0 ([5, 6] : List Nat).length).1).getD (k + 1) ("", "") =
            (varInitStr k ((ComparePages [5, 6] [5, 9] 0 ([5, 6] : List Nat).length).1.getD k (0, 0)).1,
             writeInitStr k ((ComparePages [5, 6] [5, 9] 0 ([5, 6] : List Nat).length).1.getD k (0, 0)).2))
      ∧ (∀ k, k < (ComparePages [5, 6] [5, 9] 0 ([5, 6] : List Nat).length).2.length →
          (GeneratePairMacro ("Undo" ++ "X") (ComparePages [5, 6] [5, 9] 0 ([5, 6] : List Nat).length).2).getD (k + 1) ("", "") =
            (varInitStr k ((ComparePages [5, 6] [5, 9] 0 ([5, 6] : List Nat).length).2.getD k (0, 0)).1,
             writeInitStr k ((ComparePages [5, 6] [5, 9] 0 ([5, 6] : List Nat).length).2.getD k (0, 0)).2))
      ∧ (∀ i, i < ([5, 6] : List Nat).length →
          applyChanges (ComparePages [5, 6] [5, 9] 0 ([5, 6] : List Nat).length).2
            (applyChanges (ComparePages [5, 6] [5, 9] 0 ([5, 6] : List Nat).length).1
              (fun a => ([5, 6] : List Nat).getD a 0)) (0 + i) =
            ([5, 6] : List Nat).getD i 0)) :=
  ⟨by decide, by decide,
    patchScripts_apply_undo_symmetry [5, 6] [5, 9] 0 "X"
      (fun a => ([5, 6] : List Nat).getD a 0) (by decide) (by decide)⟩

theorem getModulePagesLoop_mem (mem : Nat → Nat) (q : Nat → Option MBI) (Module SizeOfImage : Nat) :
    ∀ fuel bi PageIter acc d,
      d ∈ getModulePagesLoop mem q Module SizeOfImage bi PageIter acc fuel →
      d ∈ acc ∨ ∃ b : MBI, d = EstablishPage mem b ∧
        (b.Protect = PAGE_EXECUTE_READ ∨ b.Protect = PAGE_READONLY) := by
  intro fuel
  induction fuel with
  | zero => intro bi PageIter acc d hd; exact Or.inl hd
  | succ fuel ih =>
    intro bi PageIter acc d hd
    simp only [getModulePagesLoop] at hd
    by_cases hc : PageIter < bi.BaseAddress + SizeOfImage
    · rw [if_pos hc] at hd
      by_cases hg : ((q PageIter).getD bi).BaseAddress < Module + SizeOfImage ∧
          (((q PageIter).getD bi).Protect = PAGE_EXECUTE_READ ∨
            ((q PageIter).getD bi).Protect = PAGE_READONLY)
      · rw [if_pos hg] at hd
        rcases ih _ _ _ d hd with h | h
        · rcases List.mem_append.mp h with h2 | h2
          · exact Or.inl h2
          · exact Or.inr ⟨(q PageIter).getD bi, List.mem_singleton.mp h2, hg.2⟩
        · exact Or.inr h
      · rw [if_neg hg] at hd
        exact ih _ _ _ d hd
    · rw [if_neg hc] at hd
      exact Or.inl hd

/-- Claim C5: every region registered by the enumerator into the snapshot
set has protection exactly PAGE_EXECUTE_READ or exactly PAGE_READONLY; a
region with any other protection is never added. -/
theorem getModulePages_protection_filter (mem : Nat → Nat) (q : Nat → Option MBI)
    (Module : Nat) (ModuleInformation : Option Nat) (lastError fuel : Nat) (d : MEM_DIFF)
    (hd : d ∈ (GetModulePages mem q Module ModuleInformation lastError fuel).2) :
    d.BasicInformation.Protect = PAGE_EXECUTE_READ ∨
    d.BasicInformation.Protect = PAGE_READONLY := by
  match ModuleInformation with
  | none => simp [GetModulePages] at hd
  | some SizeOfImage =>
    rcases getModulePagesLoop_mem mem q Module SizeOfImage fuel _ _ _ d
        (by simpa [GetModulePages] using hd) with h | ⟨b, rfl, hb⟩
    · cases h
    · simpa [EstablishPage] using hb

/-- Concrete instance discharging the hypothesis of
`getModulePages_protection_filter`. -/
theorem getModulePages_protection_filter_witness :
    EstablishPage (fun _ => 0) { BaseAddress := 100, RegionSize := 4, Protect := 32 } ∈
      (GetModulePages (fun _ => 0)
        (fun a => if a = 100 then some { BaseAddress := 100, RegionSize := 4, Protect := 32 } else none)
        100 (some 4) 0 2).2
    ∧ ((EstablishPage (fun _ => 0)
          { BaseAddress := 100, RegionSize := 4, Protect := 32 }).BasicInformation.Protect =
            PAGE_EXECUTE_READ
      ∨ (EstablishPage (fun _ => 0)
          { BaseAddress := 100, RegionSize := 4, Protect := 32 }).BasicInformation.Protect =
            PAGE_READONLY) :=
  ⟨by decide,
    getModulePages_protection_filter (fun _ => 0)
      (fun a => if a = 100 then some { BaseAddress := 100, RegionSize := 4, Protect := 32 } else none)
      100 (some 4) 0 2 _ (by decide)⟩

/-- Claim C7: every snapshot in the set built by the enumerator has a buffer
whose length is exactly the region's reported size, whose contents are a
byte-for-byte copy of the region at capture time, and whose stored checksum
equals the Checksum Engine applied to that buffer; nothing in the pipeline
ever mutates a snapshot, so this holds for its whole lifetime. -/
theorem snapshot_invariant (mem : Nat → Nat) (q : Nat → Option MBI)
    (Module : Nat) (ModuleInformation : Option Nat) (lastError fuel : Nat) (d : MEM_DIFF)
    (hd : d ∈ (GetModulePages mem q Module ModuleInformation lastError fuel).2) :
    d.PageData.length = d.BasicInformation.RegionSize
    ∧ d.PageData = liveBytes mem d.BasicInformation.BaseAddress d.BasicInformation.RegionSize
    ∧ d.Checksum = GetChecksum d.PageData := by
  match ModuleInformation with
  | none => simp [GetModulePages] at hd
  | some SizeOfImage =>
    rcases getModulePagesLoop_mem mem q Module SizeOfImage fuel _ _ _ d
        (by simpa [GetModulePages] using hd) with h | ⟨b, rfl, hb⟩
    · cases h
    · refine ⟨?_, rfl, rfl⟩
      simp [EstablishPage, liveBytes]

/-- Concrete instance discharging the hypothesis of `snapshot_invariant`. -/
theorem snapshot_invariant_witness :
    EstablishPage (fun _ => 0) { BaseAddress := 100, RegionSize := 4, Protect := 32 } ∈
      (GetModulePages (fun _ => 0)
        (fun a => if a = 100 then some { BaseAddress := 100, RegionSize := 4, Protect := 32 } else none)
        100 (some 4) 7 2).2
    ∧ ((EstablishPage (fun _ => 0)
          { BaseAddress := 100, RegionSize := 4, Protect := 32 }).PageData.length =
        (EstablishPage (fun _ => 0)
          { BaseAddress := 100, RegionSize := 4, Protect := 32 }).BasicInformation.RegionSize
      ∧ (EstablishPage (fun _ => 0)
          { BaseAddress := 100, RegionSize := 4, Protect := 32 }).PageData =
          liveBytes (fun _ => 0)
            (EstablishPage (fun _ => 0)
              { BaseAddress := 100, RegionSize := 4, Protect := 32 }).BasicInformation.BaseAddress
            (EstablishPage (fun _ => 0)
              { BaseAddress := 100, RegionSize := 4, Protect := 32 }).BasicInformation.RegionSize
      ∧ (EstablishPage (fun _ => 0)
          { BaseAddress := 100, RegionSize := 4, Protect := 32 }).Checksum =
          GetChecksum (EstablishPage (fun _ => 0)
            { BaseAddress := 100, RegionSize := 4, Protect := 32 }).PageData) :=
  ⟨by decide,
    snapshot_invariant (fun _ => 0)
      (fun a => if a = 100 then some { BaseAddress := 100, RegionSize := 4, Protect := 32 } else none)
      100 (some 4) 7 2 _ (by decide)⟩

/-- Claim C6 (amended): while the monitor is watching, a snapshot whose live
checksum differs from the stored one and is nonzero yields, in every sweep
in which it still differs, a report holding the byte differ's output and
both synthesized scripts, while the remaining snapshots of the sweep are
still processed; the snapshot set itself is never updated, so the mismatch
recurs in every subsequent sweep. -/
theorem monitor_reports_mismatch_every_sweep (memSeq : Nat → Nat → Nat) (MacroName : String)
    (PageSet : List MEM_DIFF) (Page : MEM_DIFF) (n k : Nat)
    (hk : k < n) (hmem : Page ∈ PageSet)
    (hdiff : GetChecksum (liveBytes (memSeq k) Page.BasicInformation.BaseAddress
        Page.BasicInformation.RegionSize) ≠ Page.Checksum)
    (hnz : GetChecksum (liveBytes (memSeq k) Page.BasicInformation.BaseAddress
        Page.BasicInformation.RegionSize) ≠ 0) :
    mkReport (memSeq k) MacroName Page
        (GetChecksum (liveBytes (memSeq k) Page.BasicInformation.BaseAddress
          Page.BasicInformation.RegionSize))
      ∈ (EvaluatePageList memSeq MacroName PageSet n).getD k [] := by
  have hgk : (EvaluatePageList memSeq MacroName PageSet n).getD k [] =
      sweep (memSeq k) MacroName PageSet :=
    rangeMap_getD _ n k [] hk
  rw [hgk, sweep]
  refine List.mem_filterMap.mpr ⟨Page, hmem, ?_⟩
  simp only [sweepPage, EvaluatePage]
  rw [if_pos hdiff, if_pos hnz]

/-- Concrete instance discharging the hypotheses of
`monitor_reports_mismatch_every_sweep`. -/
theorem monitor_reports_mismatch_every_sweep_witness :
    (0 < 1)
    ∧ ({ Checksum := 5, BasicInformation := { BaseAddress := 100, RegionSize := 1, Protect := 32 },
         PageData := [7] } : MEM_DIFF) ∈
        [({ Checksum := 5, BasicInformation := { BaseAddress := 100, RegionSize := 1, Protect := 32 },
            PageData := [7] } : MEM_DIFF)]
    ∧ GetChecksum (liveBytes ((fun _ _ => 1) 0) 100 1) ≠ 5
    ∧ GetChecksum (liveBytes ((fun _ _ => 1) 0) 100 1) ≠ 0
    ∧ mkReport ((fun _ _ => 1) 0) "N"
        { Checksum := 5, BasicInformation := { BaseAddress := 100, RegionSize := 1, Protect := 32 },
          PageData := [7] }
        (GetChecksum (liveBytes ((fun _ _ => 1) 0) 100 1)) ∈
      (EvaluatePageList (fun _ _ => 1) "N"
        [{ Checksum := 5, BasicInformation := { BaseAddress := 100, RegionSize := 1, Protect := 32 },
           PageData := [7] }] 1).getD 0 [] :=
  ⟨by decide, by decide, by decide, by decide,
    monitor_reports_mismatch_every_sweep (fun _ _ => 1) "N" _ _ 1 0
      (by decide) (by decide) (by decide) (by decide)⟩

/-- Counterexample to claim C6 as stated: a snapshot whose live fingerprint
(0) differs from its stored fingerprint (5) produces NO report, because
`EvaluatePage` returns the live checksum itself and 0 is also the match
sentinel of the monitoring loop. -/
theorem monitor_zero_checksum_not_reported :
    GetChecksum (liveBytes (fun _ => 0) 100 1) = 0
    ∧ GetChecksum (liveBytes (fun _ => 0) 100 1) ≠
        ({ Checksum := 5, BasicInformation := { BaseAddress := 100, RegionSize := 1, Protect := 32 },
           PageData := [7] } : MEM_DIFF).Checksum
    ∧ sweep (fun _ => 0) "N"
        [{ Checksum := 5, BasicInformation := { BaseAddress := 100, RegionSize := 1, Protect := 32 },
           PageData := [7] }] = [] :=
  ⟨by decide, by decide, by decide⟩

/-- Claim C9: when the live region's recomputed checksum is 0 while the
stored fingerprint is nonzero, `EvaluatePage` returns the match sentinel 0,
so the sweep reports no mismatch and synthesizes nothing for that
modification. -/
theorem evaluatePage_zero_live_checksum_blind (mem : Nat → Nat) (MacroName : String)
    (Page : MEM_DIFF)
    (hstored : Page.Checksum ≠ 0)
    (hzero : GetChecksum (liveBytes mem Page.BasicInformation.BaseAddress
        Page.BasicInformation.RegionSize) = 0) :
    EvaluatePage mem Page = 0 ∧ sweepPage mem MacroName Page = none := by
  have h1 : EvaluatePage mem Page = 0 := by
    simp only [EvaluatePage, hzero]
    simp
  exact ⟨h1, by simp [sweepPage, h1]⟩

/-- Concrete instance discharging the hypotheses of
`evaluatePage_zero_live_checksum_blind`. -/
theorem evaluatePage_zero_live_checksum_blind_witness :
    ({ Checksum := 5, BasicInformation := { BaseAddress := 100, RegionSize := 1, Protect := 32 },
       PageData := [7] } : MEM_DIFF).Checksum ≠ 0
    ∧ GetChecksum (liveBytes (fun _ => 0) 100 1) = 0
    ∧ (EvaluatePage (fun _ => 0)
        { Checksum := 5, BasicInformation := { BaseAddress := 100, RegionSize := 1, Protect := 32 },
          PageData := [7] } = 0
      ∧ sweepPage (fun _ => 0) "M"
          { Checksum := 5, BasicInformation := { BaseAddress := 100, RegionSize := 1, Protect := 32 },
            PageData := [7] } = none) :=
  ⟨by decide, by decide,
    evaluatePage_zero_live_checksum_blind (fun _ => 0) "M" _ (by decide) (by decide)⟩

/-- Claim C3 (code-bug evidence): the byte differ performs no size check
whatsoever — invoked on buffers of different lengths (snapshot of length 1,
live region of length 2) with the caller's single `PageSize` argument, it
silently performs a partial byte comparison and returns an ordinary
(here empty) change-list pair; there is no `RegionSizeMismatch` error path
anywhere in its type or body. -/
theorem comparePages_no_size_mismatch_check :
    ([0] : List Nat).length ≠ ([0, 7] : List Nat).length
    ∧ ComparePages [0] [0, 7] 100 ([0] : List Nat).length = ([], []) :=
  ⟨by decide, by decide⟩

/-- Claim C8 (amended): when module information cannot be obtained (the
unresolved-module case — `GetModuleHandle`'s failure surfaces through
`K32GetModuleInformation` failing), the enumerator returns the WINAPI error
code to its caller with no pages enumerated and no retry; but once module
information succeeds the enumerator ALWAYS returns status 0, whatever the
region query does — a failed `VirtualQuery` is never detected. -/
theorem getModulePages_error_reporting (mem : Nat → Nat) (q : Nat → Option MBI)
    (Module lastError fuel SizeOfImage : Nat) :
    GetModulePages mem q Module none lastError fuel = (lastError, [])
    ∧ (GetModulePages mem q Module (some SizeOfImage) lastError fuel).1 = 0 :=
  ⟨rfl, rfl⟩

/-- Counterexample to claim C8 as stated: a run in which the region query
fails mid-walk (`q 104 = none`) yet the enumerator reports success
(status 0) and silently re-registers the stale previous region a second
time — the query failure is swallowed, not surfaced as a QueryError. -/
theorem getModulePages_query_failure_swallowed :
    (fun a => if a = 100
        then some ({ BaseAddress := 100, RegionSize := 4, Protect := 32 } : MBI) else none) 104 = none
    ∧ GetModulePages (fun _ => 0)
        (fun a => if a = 100
          then some ({ BaseAddress := 100, RegionSize := 4, Protect := 32 } : MBI) else none)
        100 (some 8) 57 10 =
      (0, [EstablishPage (fun _ => 0) { BaseAddress := 100, RegionSize := 4, Protect := 32 },
           EstablishPage (fun _ => 0) { BaseAddress := 100, RegionSize := 4, Protect := 32 }]) :=
  ⟨rfl, by decide⟩

/-- Claim C4 (amended): for every mismatch report the apply script is named
with the operator-supplied name (replaced by the fixed default
"DefaultMacroName" when empty) and the undo script is named "Undo" ++ name
with NO default replacement — the prefixed name is never empty, so when the
operator name is empty the undo script is named just "Undo", not
"Undo" ++ "DefaultMacroName". -/
theorem report_script_names (mem : Nat → Nat) (MacroName : String) (Page : MEM_DIFF) (ck : Nat) :
    (mkReport mem MacroName Page ck).applyScript.headD ("", "") =
      (functionInitStr (if MacroName = "" then "DefaultMacroName" else MacroName), functionEndStr)
    ∧ (mkReport mem MacroName Page ck).undoScript.headD ("", "") =
      (functionInitStr ("Undo" ++ MacroName), functionEndStr) := by
  have hne : ("Undo" ++ MacroName) ≠ "" := by
    intro h
    have hlen0 : ("Undo" ++ MacroName).length = 0 := by rw [h]; rfl
    rw [String.length_append] at hlen0
    have h4 : ("Undo" : String).length = 4 := rfl
    omega
  constructor
  · simp [mkReport, GeneratePairMacro]
  · simp [mkReport, GeneratePairMacro, hne]

/-- Counterexample to claim C4 as stated: with an empty operator name the
apply script is named "DefaultMacroName" but the undo script is named
"Undo" — not the fixed prefix concatenated with the apply script's name. -/
theorem undo_default_name_counterexample :
    (mkReport (fun _ => 0) ""
        { Checksum := 1, BasicInformation := { BaseAddress := 0, RegionSize := 1, Protect := 32 },
          PageData := [3] } 1).applyScript.headD ("", "") =
      (functionInitStr "DefaultMacroName", functionEndStr)
    ∧ (mkReport (fun _ => 0) ""
        { Checksum := 1, BasicInformation := { BaseAddress := 0, RegionSize := 1, Protect := 32 },
          PageData := [3] } 1).undoScript.headD ("", "") =
      (functionInitStr "Undo", functionEndStr)
    ∧ functionInitStr "Undo" ≠ functionInitStr ("Undo" ++ "DefaultMacroName") :=
  ⟨by decide, by decide, by decide⟩

/-- Claim C10: for every name and change list `GeneratePairMacro` returns
the header/footer pair followed by one pair per change — length is the
change count plus one and never zero — so `OutputMacro`'s unconditional
access to element 0 is in bounds on every list produced by
`GeneratePairMacro`. -/
theorem generatePairMacro_length_and_output (MacroName : String) (ChangeList : List (Nat × Nat)) :
    (GeneratePairMacro MacroName ChangeList).length = ChangeList.length + 1
    ∧ GeneratePairMacro MacroName ChangeList ≠ []
    ∧ (OutputMacro (GeneratePairMacro MacroName ChangeList)).isSome = true := by
  refine ⟨?_, ?_, ?_⟩
  · simp [GeneratePairMacro]
  · simp [GeneratePairMacro]
  · simp [GeneratePairMacro, OutputMacro]
